import Mathlib

set_option maxRecDepth 8192

/-!
Shallow embedding of `src/app.py` (a Gotify-to-ntfy protocol adapter).

Python's dynamically typed JSON/form values are modelled by the inductive
type `PyVal` (covering `None`, `bool`, `int`, `float`, `str`, `list`,
`dict` as they arise from parsed JSON).  Floats are modelled by their
sign, integer part and fractional digit string, which is how every float
literal reaching this program prints (`str(-2.5) = "-2.5"`) and truncates
(`int(-2.5) = -2`).  String helpers (`strip`, `isdigit`, `int()` parsing)
follow CPython on the ASCII range, including the PEP 515 single
underscores between digits that `int()` accepts (`int("1_2") = 12`);
the exotic Unicode extensions (Unicode digits and whitespace,
`\x`-escapes in `repr`) are outside the modelled input space.
-/

inductive PyVal where
  | pnone : PyVal
  | pbool (b : Bool) : PyVal
  | pint (n : Int) : PyVal
  | pfloat (neg : Bool) (ip : Nat) (fp : String) : PyVal
  | pstr (s : String) : PyVal
  | plist (xs : List PyVal) : PyVal
  | pdict (kvs : List (String × PyVal)) : PyVal

/-- The whitespace characters stripped by Python's `str.strip()` (ASCII range). -/
def isPySpace (c : Char) : Bool :=
  c == ' ' || c == '\t' || c == '\n' || c == '\r' || c == '\x0b' || c == '\x0c'

/-- `str.strip()` on the character list: drop whitespace from both ends. -/
def stripList (l : List Char) : List Char :=
  ((l.dropWhile isPySpace).reverse.dropWhile isPySpace).reverse

/-- Python `s.strip()`. -/
def pyStrip (s : String) : String := String.mk (stripList s.toList)

/-- Value of an ASCII digit string, most significant first. -/
def digitsVal (ds : List Char) : Nat :=
  ds.foldl (fun a c => a * 10 + (c.toNat - 48)) 0

/-- Tail of a PEP 515 digit run (everything after the first digit):
each step is a digit, or a single underscore that must be followed by a
digit (so no leading, trailing or doubled underscores). -/
def digitsTail : List Char → Bool
  | [] => true
  | [c] => c.isDigit
  | c :: d :: ds =>
    if c = '_' then d.isDigit && digitsTail ds
    else c.isDigit && digitsTail (d :: ds)

/-- A PEP 515 digit run as accepted by CPython `int()`: one leading
digit, then digits with optional single underscores between them. -/
def digitsRun : List Char → Bool
  | [] => false
  | c :: cs => c.isDigit && digitsTail cs

/-- Remove the underscore group separators before reading the value. -/
def stripUnderscores (l : List Char) : List Char :=
  l.filter (fun c => !(c == '_'))

/-- Integer literal recognition on the stripped character list: an
optional single sign followed by a PEP 515 digit run. -/
def parseIntChars : List Char → Option Int
  | [] => Option.none
  | c :: cs =>
    if c = '+' then
      if digitsRun cs then some ((digitsVal (stripUnderscores cs) : Nat) : Int)
      else Option.none
    else if c = '-' then
      if digitsRun cs then some (-((digitsVal (stripUnderscores cs) : Nat) : Int))
      else Option.none
    else if digitsRun (c :: cs) then
      some ((digitsVal (stripUnderscores (c :: cs)) : Nat) : Int)
    else Option.none

/-- Python `int(s)` for a string: strip whitespace, optional single sign,
then one or more ASCII digits; anything else raises (here: `none`). -/
def parseIntPy (s : String) : Option Int := parseIntChars (pyStrip s).toList

/-- Python `str.isdigit()` (ASCII range): non-empty and all characters `0`-`9`. -/
def pyIsdigit (s : String) : Bool :=
  !s.toList.isEmpty && s.toList.all Char.isDigit

/-- Escaping of one character inside a Python `repr` string literal
quoted by `q` (backslash, quote and the common control characters). -/
def reprEsc (q : Char) (c : Char) : List Char :=
  if c = '\\' then ['\\', '\\']
  else if c = q then ['\\', q]
  else if c = '\n' then ['\\', 'n']
  else if c = '\r' then ['\\', 'r']
  else if c = '\t' then ['\\', 't']
  else [c]

/-- Python `repr` of a string: single quotes unless the string contains a
single quote but no double quote. -/
def pyReprString (s : String) : String :=
  let q : Char := if s.toList.contains '\'' && !(s.toList.contains '"') then '"' else '\''
  String.mk (q :: (s.toList.flatMap (reprEsc q) ++ [q]))

/-- Python `str`/`repr` of a float in our sign / integer-part /
fraction-digits model (`str(-2.5) = "-2.5"`). -/
def floatStr (neg : Bool) (ip : Nat) (fp : String) : String :=
  (if neg then "-" else "") ++ toString ip ++ "." ++ fp

mutual
/-- Python `repr` of a value (used by `str` on containers). -/
def pyRepr : PyVal → String
  | .pnone => "None"
  | .pbool b => if b then "True" else "False"
  | .pint n => toString n
  | .pfloat neg ip fp => floatStr neg ip fp
  | .pstr s => pyReprString s
  | .plist xs => "[" ++ String.intercalate ", " (pyReprList xs) ++ "]"
  | .pdict kvs => "\x7b" ++ String.intercalate ", " (pyReprKVs kvs) ++ "\x7d"

def pyReprList : List PyVal → List String
  | [] => []
  | x :: xs => pyRepr x :: pyReprList xs

def pyReprKVs : List (String × PyVal) → List String
  | [] => []
  | (k, v) :: kvs => (pyReprString k ++ ": " ++ pyRepr v) :: pyReprKVs kvs
end

/-- Python `str(v)`: identity on strings, `repr` otherwise. -/
def pyStr : PyVal → String
  | .pstr s => s
  | v => pyRepr v

/-- Python truthiness of a value. -/
def pyTruthy : PyVal → Bool
  | .pnone => false
  | .pbool b => b
  | .pint n => n != 0
  | .pfloat _ ip fp => ip != 0 || fp.toList.any (fun c => c != '0')
  | .pstr s => s != ""
  | .plist xs => !xs.isEmpty
  | .pdict kvs => !kvs.isEmpty

/-- Python `int(v)`: `Option.none` models a raised exception. -/
def pyInt : PyVal → Option Int
  | .pnone => Option.none
  | .pbool b => some (if b then 1 else 0)
  | .pint n => some n
  | .pfloat neg ip _ => some (if neg then -(ip : Int) else (ip : Int))
  | .pstr s => parseIntPy s
  | .plist _ => Option.none
  | .pdict _ => Option.none

/-- `gotify_priority_to_ntfy` (src/app.py lines 53-71): try `int(p)`,
returning "3" on failure, else band the integer into "1".."5". -/
def gotify_priority_to_ntfy (p : PyVal) : String :=
  match pyInt p with
  | Option.none => "3"
  | some pInt =>
    if pInt ≤ 0 then "1"
    else if pInt ≤ 2 then "2"
    else if pInt ≤ 4 then "3"
    else if pInt ≤ 7 then "4"
    else "5"

/-- The resolved process configuration (src/app.py lines 21-45); the
environment / secret-file loading itself is out of the modelled core.
`titlePfx` embeds the configured title prefix string. -/
structure Config where
  ntfyServer : String
  ntfyUsername : String
  ntfyPassword : String
  defaultTopic : String
  defaultTags : String
  titlePfx : String
  tokenTopicMap : List (String × String)

/-- The base64 alphabet (RFC 4648, as used by Python's `base64.b64encode`). -/
def b64Alphabet : List Char :=
  "ABCDEFGHIJKLMNOPQRSTUVWXYZabcdefghijklmnopqrstuvwxyz0123456789+/".toList

def b64Digit (n : Nat) : Char := b64Alphabet.getD n 'A'

/-- Standard base64 of a byte list, with `=` padding. -/
def base64Chars : List Nat → List Char
  | [] => []
  | [a] => [b64Digit (a / 4), b64Digit (a % 4 * 16), '=', '=']
  | [a, b] => [b64Digit (a / 4), b64Digit (a % 4 * 16 + b / 16), b64Digit (b % 16 * 4), '=']
  | a :: b :: c :: rest =>
      b64Digit (a / 4) :: b64Digit (a % 4 * 16 + b / 16) ::
      b64Digit (b % 16 * 4 + c / 64) :: b64Digit (c % 64) :: base64Chars rest

def base64Encode (bytes : List Nat) : String := String.mk (base64Chars bytes)

/-- UTF-8 encoding of one character, as byte values. -/
def utf8Bytes (c : Char) : List Nat :=
  let n := c.toNat
  if n < 128 then [n]
  else if n < 2048 then [192 + n / 64, 128 + n % 64]
  else if n < 65536 then [224 + n / 4096, 128 + n / 64 % 64, 128 + n % 64]
  else [240 + n / 262144, 128 + n / 4096 % 64, 128 + n / 64 % 64, 128 + n % 64]

/-- Python `s.encode("utf-8")` as a byte-value list. -/
def strUtf8 (s : String) : List Nat := s.toList.flatMap utf8Bytes

/-- `ntfy_auth_header` (src/app.py lines 74-79): empty unless a username
is configured, else a single Basic-Auth header over `username:password`. -/
def ntfy_auth_header (cfg : Config) : List (String × String) :=
  if cfg.ntfyUsername = "" then []
  else [("Authorization",
         "Basic " ++ base64Encode (strUtf8 (cfg.ntfyUsername ++ ":" ++ cfg.ntfyPassword)))]

/-- The outbound HTTP request assembled by `publish_to_ntfy`:
target URL, header list (in insertion order) and the raw body text
(sent UTF-8 encoded, see `bodyBytes`). -/
structure OutboundRequest where
  url : String
  headers : List (String × String)
  bodyText : String

/-- The raw bytes put on the wire for the body (`message.encode("utf-8")`). -/
def bodyBytes (r : OutboundRequest) : List Nat := strUtf8 r.bodyText

/-- Header lookup (Python dict access on the header dict). -/
def hget (hs : List (String × String)) (k : String) : Option String := hs.lookup k

/-- What the single outbound `requests.post` call did: either the
transport raised (`requests.RequestException`) or a response came back. -/
inductive NetOutcome where
  | transportError (msg : String) : NetOutcome
  | response (status : Nat) (text : String) : NetOutcome

/-- An in-flight `HTTPException(status_code, detail)`. -/
structure HTTPError where
  status : Nat
  detail : String
deriving DecidableEq

/-- Request construction half of `publish_to_ntfy` (src/app.py lines 82-91):
URL join, Priority/Tags always, Title only when non-empty, then auth. -/
def buildOutbound (cfg : Config) (topic title message priority tags : String) :
    OutboundRequest where
  url := cfg.ntfyServer ++ "/" ++ topic
  headers :=
    [("Priority", priority), ("Tags", tags)]
    ++ (if title = "" then [] else [("Title", title)])
    ++ ntfy_auth_header cfg
  bodyText := message

/-- Response classification half of `publish_to_ntfy` (src/app.py lines
93-99): transport failure and upstream status ≥ 400 both become 502. -/
def publishResult (net : NetOutcome) : Except HTTPError Unit :=
  match net with
  | .transportError e => .error ⟨502, "Failed to reach ntfy: " ++ e⟩
  | .response status text =>
      if 400 ≤ status then
        .error ⟨502, "ntfy returned " ++ toString status ++ ": " ++ text.take 200⟩
      else .ok ()

/-- `publish_to_ntfy` (src/app.py lines 82-99): builds the outbound
request and classifies the outcome of sending it. -/
def publish_to_ntfy (cfg : Config) (topic title message priority tags : String)
    (net : NetOutcome) : OutboundRequest × Except HTTPError Unit :=
  (buildOutbound cfg topic title message priority tags, publishResult net)

/-- The inbound body as the handler sees it after framework parsing:
either a parsed JSON payload (content type contained "application/json")
or url-encoded form fields. -/
inductive BodyData where
  | json (payload : PyVal) : BodyData
  | form (fields : List (String × String)) : BodyData

/-- The canonical tuple produced by the normalisation part of the handler. -/
structure Parsed where
  title : String
  message : String
  priorityVal : PyVal
  extras : Option (List (String × PyVal))

/-- Python `str(x or "")` on a fetched payload value. -/
def strOrEmpty (v : PyVal) : String := if pyTruthy v then pyStr v else ""

/-- Body parsing part of `gotify_message` (src/app.py lines 126-149). -/
def normalizeBody : BodyData → Except HTTPError Parsed
  | .json payload =>
    match payload with
    | .pdict kvs =>
        .ok { title := strOrEmpty ((kvs.lookup "title").getD .pnone)
            , message := strOrEmpty ((kvs.lookup "message").getD .pnone)
            , priorityVal := (kvs.lookup "priority").getD .pnone
            , extras := match kvs.lookup "extras" with
                        | some (.pdict e) => some e
                        | _ => Option.none }
    | _ => .error ⟨400, "Invalid JSON payload"⟩
  | .form fields =>
      .ok { title := (fields.lookup "title").getD ""
          , message := (fields.lookup "message").getD ""
          , priorityVal := match fields.lookup "priority" with
                           | some s => .pstr s
                           | Option.none => .pnone
          , extras := Option.none }

/-- Python truthiness of the `extras` optional dict (`if extras:`). -/
def extrasTruthy : Option (List (String × PyVal)) → Bool
  | some e => !e.isEmpty
  | Option.none => false

/-- Token → topic resolution (src/app.py lines 123-124):
`TOKEN_TOPIC_MAP.get(token, DEFAULT_TOPIC)`. -/
def resolveTopic (cfg : Config) (token : String) : String :=
  (cfg.tokenTopicMap.lookup token).getD cfg.defaultTopic

/-- The echoed `priority` field of the success response (src/app.py line
179): `int(priority_val) if str(priority_val).isdigit() else 0`. -/
def echoPriority (v : PyVal) : Int :=
  if pyIsdigit (pyStr v) then (pyInt v).getD 0 else 0

/-- The Gotify-shaped JSON body of the 200 response (src/app.py 173-181). -/
structure GotifyResponse where
  id : Nat
  appid : Nat
  title : String
  message : String
  priority : Int
deriving DecidableEq

/-- Result of one handler run: an `HTTPException` (recording whether an
outbound request had already been sent) or a 200 response after exactly
one outbound publish. -/
inductive HandlerOutcome where
  | failure (e : HTTPError) (outbound : Option OutboundRequest) : HandlerOutcome
  | ok200 (outbound : OutboundRequest) (resp : GotifyResponse) : HandlerOutcome

/-- `gotify_message` (src/app.py lines 109-181): the POST /message handler. -/
def gotify_message (cfg : Config) (tokenParam : Option String) (body : BodyData)
    (net : NetOutcome) : HandlerOutcome :=
  let token := tokenParam.getD ""
  let topic := resolveTopic cfg token
  match normalizeBody body with
  | .error e => .failure e Option.none
  | .ok p =>
    if p.message = "" ∧ p.title = "" then
      .failure ⟨400, "Missing title/message"⟩ Option.none
    else
      let ntfyPriority := gotify_priority_to_ntfy p.priorityVal
      let tags := if extrasTruthy p.extras then cfg.defaultTags ++ ",extras"
                  else cfg.defaultTags
      let fullTitle := if p.title = "" then pyStrip cfg.titlePfx
                       else pyStrip (cfg.titlePfx ++ p.title)
      let req := buildOutbound cfg topic fullTitle
                   (if p.message = "" then p.title else p.message) ntfyPriority tags
      match publishResult net with
      | .error e => .failure e (some req)
      | .ok _ => .ok200 req
          { id := 0, appid := 0, title := p.title, message := p.message
          , priority := echoPriority p.priorityVal }

/-- The ntfy priority scale "1" < "2" < "3" < "4" < "5" as a rank. -/
def ntfyRank (s : String) : Nat :=
  if s = "1" then 1 else if s = "2" then 2 else if s = "3" then 3
  else if s = "4" then 4 else if s = "5" then 5 else 0

/-- C1: `gotify_priority_to_ntfy` always returns one of "1".."5"; it
returns "3" whenever the raw value is not coercible to an integer, and
otherwise bands the coerced integer p as 1 for p ≤ 0, 2 for 1 ≤ p ≤ 2,
3 for 3 ≤ p ≤ 4, 4 for 5 ≤ p ≤ 7 and 5 for p ≥ 8. -/
theorem gotify_priority_total_banded (raw : PyVal) :
    (gotify_priority_to_ntfy raw = "1" ∨ gotify_priority_to_ntfy raw = "2" ∨
     gotify_priority_to_ntfy raw = "3" ∨ gotify_priority_to_ntfy raw = "4" ∨
     gotify_priority_to_ntfy raw = "5")
  ∧ (pyInt raw = Option.none → gotify_priority_to_ntfy raw = "3")
  ∧ (∀ p : Int, pyInt raw = some p →
      (p ≤ 0 → gotify_priority_to_ntfy raw = "1") ∧
      (1 ≤ p ∧ p ≤ 2 → gotify_priority_to_ntfy raw = "2") ∧
      (3 ≤ p ∧ p ≤ 4 → gotify_priority_to_ntfy raw = "3") ∧
      (5 ≤ p ∧ p ≤ 7 → gotify_priority_to_ntfy raw = "4") ∧
      (8 ≤ p → gotify_priority_to_ntfy raw = "5")) := by
  cases h : pyInt raw with
  | none => simp [gotify_priority_to_ntfy, h]
  | some p =>
    have e : gotify_priority_to_ntfy raw =
        if p ≤ 0 then "1" else if p ≤ 2 then "2" else if p ≤ 4 then "3"
        else if p ≤ 7 then "4" else "5" := by
      simp [gotify_priority_to_ntfy, h]
    refine ⟨?_, ?_, ?_⟩
    · rw [e]; split_ifs <;> simp
    · simp
    · intro q hq
      injection hq with hq
      subst hq
      refine ⟨?_, ?_, ?_, ?_, ?_⟩ <;>
        (intro hc; rw [e]; split_ifs <;> first | rfl | (exfalso; omega))

/-- Witness for C1: a non-numeric string maps to "3" and integer 8 to "5". -/
theorem gotify_priority_total_banded_w :
    gotify_priority_to_ntfy (PyVal.pstr "x") = "3" ∧
    gotify_priority_to_ntfy (PyVal.pint 8) = "5" :=
  ⟨(gotify_priority_total_banded (PyVal.pstr "x")).2.1 (by decide),
   ((gotify_priority_total_banded (PyVal.pint 8)).2.2 8 rfl).2.2.2.2 (by decide)⟩

/-- C6: the integer-to-ntfy priority banding is monotone non-decreasing
under the order "1" < "2" < "3" < "4" < "5", and the boundary inputs
-5, 0, 1, 2, 3, 4, 5, 7, 8, 100 produce "1","1","2","2","3","3","4","4","5","5". -/
theorem gotify_priority_monotone_bounds :
    (∀ p q : Int, p ≤ q →
        ntfyRank (gotify_priority_to_ntfy (PyVal.pint p)) ≤
        ntfyRank (gotify_priority_to_ntfy (PyVal.pint q)))
  ∧ gotify_priority_to_ntfy (PyVal.pint (-5)) = "1"
  ∧ gotify_priority_to_ntfy (PyVal.pint 0) = "1"
  ∧ gotify_priority_to_ntfy (PyVal.pint 1) = "2"
  ∧ gotify_priority_to_ntfy (PyVal.pint 2) = "2"
  ∧ gotify_priority_to_ntfy (PyVal.pint 3) = "3"
  ∧ gotify_priority_to_ntfy (PyVal.pint 4) = "3"
  ∧ gotify_priority_to_ntfy (PyVal.pint 5) = "4"
  ∧ gotify_priority_to_ntfy (PyVal.pint 7) = "4"
  ∧ gotify_priority_to_ntfy (PyVal.pint 8) = "5"
  ∧ gotify_priority_to_ntfy (PyVal.pint 100) = "5" := by
  refine ⟨?_, by decide⟩
  intro p q hpq
  simp only [gotify_priority_to_ntfy, pyInt]
  split_ifs <;> first | decide | (exfalso; omega)

/-- Witness for C6: monotonicity applied at the concrete pair -5 ≤ 100. -/
theorem gotify_priority_monotone_bounds_w :
    ntfyRank (gotify_priority_to_ntfy (PyVal.pint (-5))) ≤
    ntfyRank (gotify_priority_to_ntfy (PyVal.pint 100)) :=
  gotify_priority_monotone_bounds.1 (-5) 100 (by decide)

/-- A sample resolved configuration used by concrete witnesses. -/
def cfg0 : Config :=
  { ntfyServer := "https://ntfy.example", ntfyUsername := "", ntfyPassword := ""
  , defaultTopic := "monitoring-adapter-info", defaultTags := "gotify,adapter"
  , titlePfx := "", tokenTopicMap := [("tok", "alerts")] }

/-- C4: the publish step fails with 502 exactly when the outbound call
fails: transport failure gives 502 with a short diagnostic, an upstream
status ≥ 400 gives 502 whose detail carries the upstream status and the
body excerpt truncated to 200 characters, and every status < 400 is
success with no error. -/
theorem publish_error_classification (cfg : Config)
    (topic title message priority tags : String) :
    (∀ e, (publish_to_ntfy cfg topic title message priority tags
            (NetOutcome.transportError e)).2 =
          Except.error ⟨502, "Failed to reach ntfy: " ++ e⟩)
  ∧ (∀ status text, 400 ≤ status →
        (publish_to_ntfy cfg topic title message priority tags
            (NetOutcome.response status text)).2 =
          Except.error ⟨502, "ntfy returned " ++ toString status ++ ": " ++ text.take 200⟩)
  ∧ (∀ status text, status < 400 →
        (publish_to_ntfy cfg topic title message priority tags
            (NetOutcome.response status text)).2 = Except.ok ()) := by
  refine ⟨fun e => rfl, fun status text h => ?_, fun status text h => ?_⟩
  · simp [publish_to_ntfy, publishResult, h]
  · have h' : ¬ (400 ≤ status) := by omega
    simp [publish_to_ntfy, publishResult, h']

/-- Witness for C4: a simulated upstream 503 with a short body. -/
theorem publish_error_classification_w :
    (publish_to_ntfy cfg0 "t" "T" "m" "3" "g"
        (NetOutcome.response 503 "upstream says no")).2 =
      Except.error ⟨502, "ntfy returned 503: upstream says no"⟩ :=
  (publish_error_classification cfg0 "t" "T" "m" "3" "g").2.1 503
    "upstream says no" (by decide)

/-- C8: every outbound publish request carries the Priority and Tags
headers, and carries a Title header exactly when the title handed to the
publisher is non-empty. -/
theorem outbound_headers_rule (cfg : Config)
    (topic title message priority tags : String) (net : NetOutcome) :
    hget (publish_to_ntfy cfg topic title message priority tags net).1.headers
        "Priority" = some priority
  ∧ hget (publish_to_ntfy cfg topic title message priority tags net).1.headers
        "Tags" = some tags
  ∧ (title ≠ "" →
      hget (publish_to_ntfy cfg topic title message priority tags net).1.headers
        "Title" = some title)
  ∧ (title = "" →
      hget (publish_to_ntfy cfg topic title message priority tags net).1.headers
        "Title" = Option.none) := by
  refine ⟨rfl, rfl, fun h => ?_, fun h => ?_⟩
  · simp [publish_to_ntfy, buildOutbound, hget, List.lookup, h]
  · subst h
    simp only [publish_to_ntfy, buildOutbound, hget, ntfy_auth_header]
    split_ifs <;> simp [List.lookup]

/-- Witness for C8: concrete publishes with non-empty and empty title. -/
theorem outbound_headers_rule_w :
    hget (publish_to_ntfy cfg0 "t" "Hello" "m" "3" "g"
        (NetOutcome.response 200 "")).1.headers "Title" = some "Hello"
  ∧ hget (publish_to_ntfy cfg0 "t" "" "m" "3" "g"
        (NetOutcome.response 200 "")).1.headers "Title" = Option.none :=
  ⟨(outbound_headers_rule cfg0 "t" "Hello" "m" "3" "g"
      (NetOutcome.response 200 "")).2.2.1 (by decide),
   (outbound_headers_rule cfg0 "t" "" "m" "3" "g"
      (NetOutcome.response 200 "")).2.2.2 rfl⟩

/-- C7: when no username is configured the outbound request carries no
Authorization header and the outbound headers are identical for any two
configured passwords; when a username is configured, an
`Authorization: Basic base64(username:password)` header is added. -/
theorem auth_header_noninterference (cfg : Config)
    (topic title message priority tags : String) (net : NetOutcome) :
    (cfg.ntfyUsername = "" →
      hget (publish_to_ntfy cfg topic title message priority tags net).1.headers
        "Authorization" = Option.none)
  ∧ (cfg.ntfyUsername = "" → ∀ pw1 pw2 : String,
      (publish_to_ntfy { cfg with ntfyPassword := pw1 }
          topic title message priority tags net).1.headers =
      (publish_to_ntfy { cfg with ntfyPassword := pw2 }
          topic title message priority tags net).1.headers)
  ∧ (cfg.ntfyUsername ≠ "" →
      hget (publish_to_ntfy cfg topic title message priority tags net).1.headers
        "Authorization" =
      some ("Basic " ++
        base64Encode (strUtf8 (cfg.ntfyUsername ++ ":" ++ cfg.ntfyPassword)))) := by
  refine ⟨fun h => ?_, fun h pw1 pw2 => ?_, fun h => ?_⟩
  · simp only [publish_to_ntfy, buildOutbound, hget, ntfy_auth_header, h]
    split_ifs <;> simp_all [List.lookup]
  · simp [publish_to_ntfy, buildOutbound, ntfy_auth_header, h]
  · simp only [publish_to_ntfy, buildOutbound, hget, ntfy_auth_header, h]
    split_ifs <;> simp_all [List.lookup]

/-- Witness for C7: password changes leave the headers of an
unauthenticated publish unchanged, and no Authorization header is sent. -/
theorem auth_header_noninterference_w :
    hget (publish_to_ntfy cfg0 "t" "T" "m" "3" "g"
        (NetOutcome.response 200 "")).1.headers "Authorization" = Option.none
  ∧ (publish_to_ntfy { cfg0 with ntfyPassword := "hunter2" } "t" "T" "m" "3" "g"
        (NetOutcome.response 200 "")).1.headers =
     (publish_to_ntfy { cfg0 with ntfyPassword := "s3cret" } "t" "T" "m" "3" "g"
        (NetOutcome.response 200 "")).1.headers :=
  ⟨(auth_header_noninterference cfg0 "t" "T" "m" "3" "g"
      (NetOutcome.response 200 "")).1 rfl,
   (auth_header_noninterference cfg0 "t" "T" "m" "3" "g"
      (NetOutcome.response 200 "")).2.1 rfl "hunter2" "s3cret"⟩

/-- Helper: once normalisation succeeded and the content check passed,
the handler publishes exactly one outbound request built from the
resolved topic, stripped title, body fallback, mapped priority and tags,
and the outcome is decided by the publish classification. -/
theorem gotify_message_run (cfg : Config) (tokenParam : Option String)
    (body : BodyData) (net : NetOutcome) (p : Parsed)
    (hn : normalizeBody body = Except.ok p)
    (hne : ¬ (p.message = "" ∧ p.title = "")) :
    gotify_message cfg tokenParam body net =
      match publishResult net with
      | .error e => .failure e (some (buildOutbound cfg
          (resolveTopic cfg (tokenParam.getD ""))
          (if p.title = "" then pyStrip cfg.titlePfx
           else pyStrip (cfg.titlePfx ++ p.title))
          (if p.message = "" then p.title else p.message)
          (gotify_priority_to_ntfy p.priorityVal)
          (if extrasTruthy p.extras then cfg.defaultTags ++ ",extras"
           else cfg.defaultTags)))
      | .ok _ => .ok200 (buildOutbound cfg
          (resolveTopic cfg (tokenParam.getD ""))
          (if p.title = "" then pyStrip cfg.titlePfx
           else pyStrip (cfg.titlePfx ++ p.title))
          (if p.message = "" then p.title else p.message)
          (gotify_priority_to_ntfy p.priorityVal)
          (if extrasTruthy p.extras then cfg.defaultTags ++ ",extras"
           else cfg.defaultTags))
          ⟨0, 0, p.title, p.message, echoPriority p.priorityVal⟩ := by
  simp only [gotify_message, hn]
  rw [if_neg hne]

/-- Helper: every error produced by the publish classification is a 502. -/
theorem publishResult_error_status (net : NetOutcome) (e : HTTPError)
    (h : publishResult net = Except.error e) : e.status = 502 := by
  cases net with
  | transportError m =>
    injection h with h'
    rw [← h']
  | response st txt =>
    simp only [publishResult] at h
    split_ifs at h
    injection h with h'
    rw [← h']

/-- C3: if the parsed title and message are both empty the handler fails
with 400 "Missing title/message" and no outbound request is made; when
at least one of them is non-empty that error is never raised. -/
theorem missing_content_rule (cfg : Config) (tokenParam : Option String)
    (body : BodyData) (net : NetOutcome) (p : Parsed)
    (hn : normalizeBody body = Except.ok p) :
    (p.title = "" → p.message = "" →
      gotify_message cfg tokenParam body net =
        HandlerOutcome.failure ⟨400, "Missing title/message"⟩ Option.none)
  ∧ (p.title ≠ "" ∨ p.message ≠ "" →
      ∀ ob, gotify_message cfg tokenParam body net ≠
        HandlerOutcome.failure ⟨400, "Missing title/message"⟩ ob) := by
  constructor
  · intro ht hm
    simp [gotify_message, hn, ht, hm]
  · intro hne ob
    have hc : ¬ (p.message = "" ∧ p.title = "") := by tauto
    rw [gotify_message_run cfg tokenParam body net p hn hc]
    cases hpr : publishResult net with
    | error e =>
      simp only
      intro heq
      injection heq with h1 h2
      have h502 := publishResult_error_status net e hpr
      rw [h1] at h502
      simp at h502
    | ok u => simp

/-- Witness for C3: an empty form body is rejected with 400 and nothing
is sent outbound. -/
theorem missing_content_rule_w :
    gotify_message cfg0 Option.none (BodyData.form []) (NetOutcome.response 200 "") =
      HandlerOutcome.failure ⟨400, "Missing title/message"⟩ Option.none :=
  (missing_content_rule cfg0 Option.none (BodyData.form [])
      (NetOutcome.response 200 "")
      { title := "", message := "", priorityVal := PyVal.pnone
      , extras := Option.none } rfl).1 rfl rfl

/-- C5: the token is taken verbatim (absent parameter behaves as the
empty string); a mapped token resolves to its topic, any other token
resolves to the default topic, resolution never fails, and whenever the
handler sends an outbound request it targets the resolved topic. -/
theorem token_topic_resolution (cfg : Config) (tokenParam : Option String)
    (body : BodyData) (net : NetOutcome) :
    (∀ v, cfg.tokenTopicMap.lookup (tokenParam.getD "") = some v →
        resolveTopic cfg (tokenParam.getD "") = v)
  ∧ (cfg.tokenTopicMap.lookup (tokenParam.getD "") = Option.none →
        resolveTopic cfg (tokenParam.getD "") = cfg.defaultTopic)
  ∧ (∀ req resp, gotify_message cfg tokenParam body net =
        HandlerOutcome.ok200 req resp →
        req.url = cfg.ntfyServer ++ "/" ++ resolveTopic cfg (tokenParam.getD ""))
  ∧ (∀ e req, gotify_message cfg tokenParam body net =
        HandlerOutcome.failure e (some req) →
        req.url = cfg.ntfyServer ++ "/" ++ resolveTopic cfg (tokenParam.getD "")) := by
  refine ⟨?_, ?_, ?_, ?_⟩
  · intro v hv; simp [resolveTopic, hv]
  · intro hv; simp [resolveTopic, hv]
  · intro req resp hrun
    cases hn : normalizeBody body with
    | error e => simp [gotify_message, hn] at hrun
    | ok p =>
      by_cases hc : p.message = "" ∧ p.title = ""
      · simp [gotify_message, hn, hc.1, hc.2] at hrun
      · rw [gotify_message_run cfg tokenParam body net p hn hc] at hrun
        cases hpr : publishResult net with
        | error e => rw [hpr] at hrun; simp at hrun
        | ok u =>
          rw [hpr] at hrun
          injection hrun with h1 h2
          rw [← h1]
          rfl
  · intro e req hrun
    cases hn : normalizeBody body with
    | error e' => simp [gotify_message, hn] at hrun
    | ok p =>
      by_cases hc : p.message = "" ∧ p.title = ""
      · simp [gotify_message, hn, hc.1, hc.2] at hrun
      · rw [gotify_message_run cfg tokenParam body net p hn hc] at hrun
        cases hpr : publishResult net with
        | error e' =>
          rw [hpr] at hrun
          injection hrun with h1 h2
          injection h2 with h2
          rw [← h2]
          rfl
        | ok u => rw [hpr] at hrun; simp at hrun

/-- Witness for C5: the sample map sends the known token to its topic
and an absent token parameter to the default topic. -/
theorem token_topic_resolution_w :
    resolveTopic cfg0 ((some "tok").getD "") = "alerts" ∧
    resolveTopic cfg0 ((Option.none : Option String).getD "") = cfg0.defaultTopic :=
  ⟨(token_topic_resolution cfg0 (some "tok") (BodyData.form [])
      (NetOutcome.response 200 "")).1 "alerts" rfl,
   (token_topic_resolution cfg0 Option.none (BodyData.form [])
      (NetOutcome.response 200 "")).2.1 rfl⟩

/-- Helper: digit characters are not Python whitespace. -/
theorem not_pySpace_of_digit (c : Char) (h : c.isDigit = true) :
    isPySpace c = false := by
  cases hs : isPySpace c
  · rfl
  · exfalso
    simp only [isPySpace, Bool.or_eq_true, beq_iff_eq] at hs
    rcases hs with ((((h1 | h1) | h1) | h1) | h1) | h1 <;> subst h1 <;>
      exact absurd h (by decide)

/-- Helper: dropWhile is the identity when no element satisfies p. -/
theorem dropWhile_all_false (p : Char → Bool) (l : List Char)
    (h : ∀ c ∈ l, p c = false) : l.dropWhile p = l := by
  cases l with
  | nil => rfl
  | cons a l =>
    rw [List.dropWhile_cons, h a (List.mem_cons_self a l)]
    simp

/-- Helper: stripping whitespace from an all-digits list changes nothing. -/
theorem stripList_all_digits (l : List Char) (h : l.all Char.isDigit = true) :
    stripList l = l := by
  have hmem : ∀ c ∈ l, isPySpace c = false := fun c hc =>
    not_pySpace_of_digit c (List.all_eq_true.mp h c hc)
  unfold stripList
  rw [dropWhile_all_false isPySpace l hmem]
  rw [dropWhile_all_false isPySpace l.reverse
      (fun c hc => hmem c (List.mem_reverse.mp hc))]
  exact List.reverse_reverse l

/-- Helper: an all-digits list is a valid digit-run tail. -/
theorem digitsTail_of_all : ∀ l : List Char, l.all Char.isDigit = true →
    digitsTail l = true
  | [], _ => rfl
  | [c], h => by
      simp only [List.all_cons, List.all_nil, Bool.and_true] at h
      simp [digitsTail, h]
  | c :: d :: ds, h => by
      simp only [List.all_cons, Bool.and_eq_true] at h
      have hc : c ≠ '_' := fun e => by subst e; exact absurd h.1 (by decide)
      simp [digitsTail, hc, h.1,
        digitsTail_of_all (d :: ds) (by simp [h.2.1, h.2.2])]

/-- Helper: an all-digits non-empty list is a digit run. -/
theorem digitsRun_of_all (l : List Char) (hne : l ≠ [])
    (h : l.all Char.isDigit = true) : digitsRun l = true := by
  cases l with
  | nil => exact absurd rfl hne
  | cons c cs =>
    simp only [List.all_cons, Bool.and_eq_true] at h
    simp [digitsRun, h.1, digitsTail_of_all cs h.2]

/-- Helper: an all-digits list has no underscores to strip. -/
theorem stripUnderscores_of_all (l : List Char)
    (h : l.all Char.isDigit = true) : stripUnderscores l = l := by
  unfold stripUnderscores
  apply List.filter_eq_self.mpr
  intro a ha
  have hd := List.all_eq_true.mp h a ha
  cases he : a == '_'
  · rfl
  · exact absurd hd (by rw [beq_iff_eq.mp he]; decide)

/-- Helper: Python `int()` succeeds on every non-empty all-digits string
and yields its decimal value. -/
theorem parseIntPy_digits (s : String) (h : pyIsdigit s = true) :
    parseIntPy s = some ((digitsVal s.toList : Nat) : Int) := by
  simp only [pyIsdigit, Bool.and_eq_true, Bool.not_eq_true'] at h
  obtain ⟨hne, hall⟩ := h
  unfold parseIntPy
  rw [show (pyStrip s).toList = s.toList from stripList_all_digits s.toList hall]
  cases hc : s.toList with
  | nil => rw [hc] at hne; exact absurd hne (by decide)
  | cons c cs =>
    rw [hc] at hall
    have hcd : c.isDigit = true := by
      simp only [List.all_cons, Bool.and_eq_true] at hall
      exact hall.1
    simp only [parseIntChars]
    rw [if_neg (fun e => by subst e; exact absurd hcd (by decide)),
        if_neg (fun e => by subst e; exact absurd hcd (by decide)),
        if_pos (digitsRun_of_all (c :: cs) (by simp) hall),
        stripUnderscores_of_all (c :: cs) hall]

/-- Helper: a string containing a non-digit character is not `isdigit`. -/
theorem pyIsdigit_eq_false_of_mem (s : String) (c : Char) (hc : c ∈ s.toList)
    (hcd : c.isDigit = false) : pyIsdigit s = false := by
  unfold pyIsdigit
  have hall : s.toList.all Char.isDigit = false := by
    cases h : s.toList.all Char.isDigit
    · rfl
    · exact absurd (List.all_eq_true.mp h c hc) (by simp [hcd])
  rw [hall, Bool.and_false]

/-- Helper: the printed form of a float always contains a dot, so it is
never all digits. -/
theorem pyIsdigit_floatStr (neg : Bool) (ip : Nat) (fp : String) :
    pyIsdigit (floatStr neg ip fp) = false := by
  refine pyIsdigit_eq_false_of_mem (floatStr neg ip fp) '.' ?_ (by decide)
  show '.' ∈ (floatStr neg ip fp).data
  unfold floatStr
  rw [String.data_append, String.data_append]
  exact List.mem_append.mpr (Or.inl (List.mem_append.mpr (Or.inr (by decide))))

/-- Helper: whenever `str(v).isdigit()` holds, `int(v)` succeeds and the
echoed priority is exactly that integer. -/
theorem pyInt_some_echo_of_isdigit (v : PyVal)
    (h : pyIsdigit (pyStr v) = true) : pyInt v = some (echoPriority v) := by
  have he : echoPriority v = (pyInt v).getD 0 := by
    unfold echoPriority
    rw [h]
    simp
  rw [he]
  cases v with
  | pint n => rfl
  | pstr s =>
    have hp := parseIntPy_digits s h
    show parseIntPy s = some ((parseIntPy s).getD 0)
    rw [hp]
    rfl
  | pnone => exact absurd h (by decide)
  | pbool b => cases b <;> exact absurd h (by decide)
  | pfloat neg ip fp =>
    rw [show pyStr (PyVal.pfloat neg ip fp) = floatStr neg ip fp from rfl,
        pyIsdigit_floatStr] at h
    cases h
  | plist xs =>
    have hf : pyIsdigit (pyStr (PyVal.plist xs)) = false := by
      refine pyIsdigit_eq_false_of_mem _ '[' ?_ (by decide)
      show '[' ∈ (pyRepr (PyVal.plist xs)).data
      rw [show pyRepr (PyVal.plist xs) =
            "[" ++ String.intercalate ", " (pyReprList xs) ++ "]" from rfl]
      rw [String.data_append, String.data_append]
      exact List.mem_append.mpr (Or.inl (List.mem_append.mpr (Or.inl (by decide))))
    rw [hf] at h
    cases h
  | pdict kvs =>
    have hf : pyIsdigit (pyStr (PyVal.pdict kvs)) = false := by
      refine pyIsdigit_eq_false_of_mem _ '\x7b' ?_ (by decide)
      show '\x7b' ∈ (pyRepr (PyVal.pdict kvs)).data
      rw [show pyRepr (PyVal.pdict kvs) =
            "\x7b" ++ String.intercalate ", " (pyReprKVs kvs) ++ "\x7d" from rfl]
      rw [String.data_append, String.data_append]
      exact List.mem_append.mpr (Or.inl (List.mem_append.mpr (Or.inl (by decide))))
    rw [hf] at h
    cases h

/-- C10: in the 200 response the echoed priority equals `int(raw)` when
`str(raw)` consists solely of digits, and is 0 for every other raw
priority value (negative integers, floats, signed or spaced numeric
strings, ...), even when the outbound priority mapping coerced it. -/
theorem echoed_priority_digits (cfg : Config) (tokenParam : Option String)
    (body : BodyData) (net : NetOutcome) (p : Parsed)
    (req : OutboundRequest) (resp : GotifyResponse)
    (hn : normalizeBody body = Except.ok p)
    (hrun : gotify_message cfg tokenParam body net = HandlerOutcome.ok200 req resp) :
    (pyIsdigit (pyStr p.priorityVal) = true →
        pyInt p.priorityVal = some resp.priority)
  ∧ (pyIsdigit (pyStr p.priorityVal) = false → resp.priority = 0) := by
  have hresp : resp.priority = echoPriority p.priorityVal := by
    by_cases hc : p.message = "" ∧ p.title = ""
    · simp [gotify_message, hn, hc.1, hc.2] at hrun
    · rw [gotify_message_run cfg tokenParam body net p hn hc] at hrun
      cases hpr : publishResult net with
      | error e => rw [hpr] at hrun; simp at hrun
      | ok u =>
        rw [hpr] at hrun
        injection hrun with h1 h2
        rw [← h2]
  constructor
  · intro h
    rw [hresp]
    exact pyInt_some_echo_of_isdigit p.priorityVal h
  · intro h
    rw [hresp]
    unfold echoPriority
    rw [h]
    simp

/-- JSON body `{"title": "T", "priority": -5}` used by the C10 witness. -/
def bodyW : BodyData :=
  BodyData.json (PyVal.pdict
    [("title", PyVal.pstr "T"), ("priority", PyVal.pint (-5))])

/-- Parse result of `bodyW`. -/
def pW : Parsed :=
  { title := "T", message := "", priorityVal := PyVal.pint (-5)
  , extras := Option.none }

/-- Outbound request produced for `bodyW` under `cfg0`. -/
def reqW : OutboundRequest :=
  { url := "https://ntfy.example/alerts"
  , headers := [("Priority", "1"), ("Tags", "gotify,adapter"), ("Title", "T")]
  , bodyText := "T" }

/-- 200 response produced for `bodyW`. -/
def respW : GotifyResponse :=
  { id := 0, appid := 0, title := "T", message := "", priority := 0 }

/-- Witness for C10: priority -5 is coercible to an integer (the
outbound mapping used it), yet the response echoes 0 because "-5" is
not all digits. -/
theorem echoed_priority_digits_w :
    respW.priority = 0 ∧ pyInt (PyVal.pint (-5)) = some (-5) :=
  ⟨(echoed_priority_digits cfg0 (some "tok") bodyW (NetOutcome.response 200 "")
      pW reqW respW rfl rfl).2 (by decide), rfl⟩

/-- C9: for an accepted request whose parsed message is empty but whose
title is non-empty, the outbound body is the UTF-8 encoding of the title
text, while the 200 response still echoes the empty message string. -/
theorem empty_message_title_body (cfg : Config) (tokenParam : Option String)
    (body : BodyData) (p : Parsed)
    (hn : normalizeBody body = Except.ok p)
    (hm : p.message = "") (ht : p.title ≠ "")
    (st : Nat) (txt : String) (hst : st < 400) :
    ∃ req resp,
      gotify_message cfg tokenParam body (NetOutcome.response st txt) =
        HandlerOutcome.ok200 req resp
      ∧ bodyBytes req = strUtf8 p.title
      ∧ resp.message = "" := by
  have hc : ¬ (p.message = "" ∧ p.title = "") := fun hco => ht hco.2
  rw [gotify_message_run cfg tokenParam body (NetOutcome.response st txt) p hn hc]
  have hpr : publishResult (NetOutcome.response st txt) = Except.ok () := by
    simp only [publishResult]
    rw [if_neg (by omega)]
  rw [hpr]
  refine ⟨_, _, rfl, ?_, hm⟩
  show strUtf8 (if p.message = "" then p.title else p.message) = strUtf8 p.title
  rw [if_pos hm]

/-- Witness for C9: a JSON body carrying only a title. -/
theorem empty_message_title_body_w :
    ∃ req resp,
      gotify_message cfg0 (some "tok")
        (BodyData.json (PyVal.pdict [("title", PyVal.pstr "T")]))
        (NetOutcome.response 200 "") = HandlerOutcome.ok200 req resp
      ∧ bodyBytes req = strUtf8 "T"
      ∧ resp.message = "" :=
  empty_message_title_body cfg0 (some "tok")
    (BodyData.json (PyVal.pdict [("title", PyVal.pstr "T")]))
    ⟨"T", "", PyVal.pnone, Option.none⟩ rfl rfl (by decide) 200 "" (by decide)

/-- Helper: a trailing element failing the predicate survives dropWhile. -/
theorem dropWhile_append_singleton (p : Char → Bool) (c : Char)
    (hc : p c = false) (l : List Char) :
    (l ++ [c]).dropWhile p = l.dropWhile p ++ [c] := by
  induction l with
  | nil => simp [List.dropWhile_cons, hc]
  | cons a l ih =>
    rw [List.cons_append, List.dropWhile_cons, List.dropWhile_cons]
    cases hpa : p a <;> simp [hpa, ih]

/-- Helper: appending "T" to any string strips to a non-empty string. -/
theorem pyStrip_append_T_ne (x : String) : pyStrip (x ++ "T") ≠ "" := by
  intro h
  have hdata : stripList (x ++ "T").toList = ([] : List Char) :=
    congrArg String.data h
  have htl : (x ++ "T").toList = x.toList ++ ['T'] := String.data_append x "T"
  rw [htl] at hdata
  unfold stripList at hdata
  rw [dropWhile_append_singleton isPySpace 'T' (by decide) x.toList] at hdata
  rw [List.reverse_append] at hdata
  simp [show isPySpace 'T' = false from rfl] at hdata

/-- Helper: the outbound Title header is present with the given value
whenever the title handed to the request builder is non-empty. -/
theorem buildOutbound_title_some (cfg : Config)
    (topic title message priority tags : String) (h : title ≠ "") :
    hget (buildOutbound cfg topic title message priority tags).headers "Title"
      = some title := by
  simp [buildOutbound, hget, List.lookup, h]

/-- JSON body `{"title": "T", "message": "M", "priority": 8}` from the spec's
forwarding scenario. -/
def bodyTM8 : BodyData :=
  BodyData.json (PyVal.pdict
    [("title", PyVal.pstr "T"), ("message", PyVal.pstr "M"),
     ("priority", PyVal.pint 8)])

/-- C2 (amended): posting `{"title":"T","message":"M","priority":8}` with
a token mapped to topic X yields exactly one outbound POST to baseUrl/X
carrying Priority 5, a Title header equal to prefix + "T" stripped of
surrounding whitespace (hence equal to prefix + "T" whenever the
configured prefix carries no leading whitespace), raw body "M", and a
200 response echoing title "T", message "M", priority 8. -/
theorem forward_success_shape (cfg : Config) (tok X : String)
    (hmap : cfg.tokenTopicMap.lookup tok = some X)
    (st : Nat) (txt : String) (hst : st < 400) :
    ∃ req resp,
      gotify_message cfg (some tok) bodyTM8 (NetOutcome.response st txt) =
        HandlerOutcome.ok200 req resp
      ∧ req.url = cfg.ntfyServer ++ "/" ++ X
      ∧ hget req.headers "Priority" = some "5"
      ∧ hget req.headers "Title" = some (pyStrip (cfg.titlePfx ++ "T"))
      ∧ req.bodyText = "M"
      ∧ bodyBytes req = strUtf8 "M"
      ∧ resp = { id := 0, appid := 0, title := "T", message := "M"
               , priority := 8 } := by
  have hn : normalizeBody bodyTM8 =
      Except.ok ⟨"T", "M", PyVal.pint 8, Option.none⟩ := rfl
  have hc : ¬ ((⟨"T", "M", PyVal.pint 8, Option.none⟩ : Parsed).message = "" ∧
               (⟨"T", "M", PyVal.pint 8, Option.none⟩ : Parsed).title = "") :=
    fun hco => absurd hco.1 (by decide)
  rw [gotify_message_run cfg (some tok) bodyTM8 (NetOutcome.response st txt) _ hn hc]
  have hpr : publishResult (NetOutcome.response st txt) = Except.ok () := by
    simp only [publishResult]
    rw [if_neg (by omega)]
  rw [hpr]
  refine ⟨_, _, rfl, ?_, rfl, ?_, rfl, rfl, rfl⟩
  · show cfg.ntfyServer ++ "/" ++ resolveTopic cfg ((some tok).getD "") =
        cfg.ntfyServer ++ "/" ++ X
    unfold resolveTopic
    rw [show (some tok).getD "" = tok from rfl, hmap]
    rfl
  · show hget (buildOutbound cfg (resolveTopic cfg ((some tok).getD ""))
        (pyStrip (cfg.titlePfx ++ "T")) "M" "5"
        cfg.defaultTags).headers "Title" = some (pyStrip (cfg.titlePfx ++ "T"))
    exact buildOutbound_title_some cfg _ _ "M" "5" cfg.defaultTags
      (pyStrip_append_T_ne cfg.titlePfx)

/-- Witness for C2's amended theorem: concrete run under `cfg0`. -/
theorem forward_success_shape_w :
    ∃ req resp,
      gotify_message cfg0 (some "tok") bodyTM8 (NetOutcome.response 200 "ok") =
        HandlerOutcome.ok200 req resp
      ∧ req.url = cfg0.ntfyServer ++ "/" ++ "alerts"
      ∧ hget req.headers "Priority" = some "5"
      ∧ hget req.headers "Title" = some (pyStrip (cfg0.titlePfx ++ "T"))
      ∧ req.bodyText = "M"
      ∧ bodyBytes req = strUtf8 "M"
      ∧ resp = { id := 0, appid := 0, title := "T", message := "M"
               , priority := 8 } :=
  forward_success_shape cfg0 "tok" "alerts" rfl 200 "ok" (by decide)

/-- Configuration with a leading-whitespace title prefix, for the C2
counterexample. -/
def cfgC2 : Config :=
  { ntfyServer := "https://n", ntfyUsername := "", ntfyPassword := ""
  , defaultTopic := "d", defaultTags := "gotify,adapter"
  , titlePfx := " P: ", tokenTopicMap := [("tok", "x")] }

/-- Title header of the outbound request of a handler outcome, if any. -/
def outboundTitleOf : HandlerOutcome → Option String
  | .ok200 req _ => hget req.headers "Title"
  | .failure _ (some req) => hget req.headers "Title"
  | .failure _ Option.none => Option.none

/-- Counterexample to C2 as stated: with configured prefix " P: " the
Title header is the stripped "P: T", not prefix + "T" = " P: T". -/
theorem forward_success_shape_cex :
    outboundTitleOf (gotify_message cfgC2 (some "tok") bodyTM8
        (NetOutcome.response 200 "")) = some "P: T"
  ∧ some "P: T" ≠ some (cfgC2.titlePfx ++ "T") :=
  ⟨rfl, by decide⟩
